import Mathlib

/-!
Verification of `great_expectations/core/added_diagnostics.py`: a shallow
embedding of the dependency-diagnostics helper that tracks whether a
resource and its dependencies were registered ("added") successfully.

Raising an exception is modelled with `Except` (for parent diagnostics) and
an explicit result type (for child diagnostics, where the potentially
out-of-bounds list access `self.errors[0]` is modelled fallibly).
Method calls that could in principle mutate `self.errors` also have a
state-passing variant returning the updated object.
-/

namespace GX

/-- Modelled from the spec: the per-resource leaf error classes from
`great_expectations.exceptions.exceptions` (not under src/). The spec treats
them as distinct opaque typed kinds, one per resource kind, with
per-resource-type identity checks. -/
inductive ResourceErrorKind where
  | batchDefinitionNotAdded
  | checkpointNotAdded
  | expectationSuiteNotAdded
  | validationDefinitionNotAdded
deriving DecidableEq, Repr

/-- Modelled from the spec: an instance of a `ResourceNotAddedError` subclass,
identified by its class (kind) and carrying an opaque message payload. -/
structure ResourceNotAddedError where
  kind : ResourceErrorKind
  message : String
deriving DecidableEq, Repr

/-- Modelled from the spec: `isinstance(e, cls)` for the leaf error classes.
The spec describes them as a set of distinct per-resource-kind classes with no
subclass relation among the leaves, so the check is kind equality. -/
def isinstance_of (e : ResourceNotAddedError) (cls : ResourceErrorKind) : Bool :=
  e.kind == cls

/-- Modelled from the spec: the aggregate `ResourcesNotAddedError` subclasses,
one per parent resource kind. -/
inductive ResourcesExceptionKind where
  | checkpointRelatedResourcesNotAdded
  | validationDefinitionRelatedResourcesNotAdded
deriving DecidableEq, Repr

/-- Modelled from the spec: an aggregate exception instance, constructed as
`exception_class(errors=...)`; it carries the full ordered error list. -/
structure ResourcesNotAddedError where
  kind : ResourcesExceptionKind
  errors : List ResourceNotAddedError
deriving DecidableEq, Repr

/-- `AddedDiagnostics`: wrapper around a list of errors; used to determine if
a resource has been added successfully (dataclass with one field `errors`). -/
structure AddedDiagnostics where
  errors : List ResourceNotAddedError
deriving DecidableEq, Repr

/-- `AddedDiagnostics.is_added`: `len(self.errors) == 0`. -/
def AddedDiagnostics.is_added (d : AddedDiagnostics) : Bool :=
  d.errors.length == 0

/-- Result of `_ChildAddedDiagnostics.raise_for_errors`: either a normal
return, a raised error, or an out-of-bounds access on `self.errors[0]`. -/
inductive ChildRaiseResult where
  | ok
  | raised (e : ResourceNotAddedError)
  | indexError
deriving DecidableEq, Repr

/-- `_ChildAddedDiagnostics.raise_for_errors`:
`if not self.is_added: raise self.errors[0]`. The index access is modelled
fallibly so that an empty list at that point would be an `indexError`. -/
def ChildAddedDiagnostics.raise_for_errors (d : AddedDiagnostics) : ChildRaiseResult :=
  if !d.is_added then
    match d.errors[0]? with
    | some e => ChildRaiseResult.raised e
    | none => ChildRaiseResult.indexError
  else ChildRaiseResult.ok

/-- State-passing variant of `_ChildAddedDiagnostics.raise_for_errors`: the
method body contains no assignment to `self.errors`, so the resulting object
is returned alongside the outcome. -/
def ChildAddedDiagnostics.raise_for_errors_st (d : AddedDiagnostics) :
    ChildRaiseResult × AddedDiagnostics :=
  if !d.is_added then
    match d.errors[0]? with
    | some e => (ChildRaiseResult.raised e, d)
    | none => (ChildRaiseResult.indexError, d)
  else (ChildRaiseResult.ok, d)

/-- `_ParentAddedDiagnostics`: diagnostics for a resource with dependencies.
The Python class-level variables `parent_error_class`,
`children_error_classes` and `exception_class` are carried as fields fixed by
the concrete subclass constructors below. -/
structure ParentAddedDiagnostics where
  parent_error_class : ResourceErrorKind
  children_error_classes : List ResourceErrorKind
  exception_class : ResourcesExceptionKind
  errors : List ResourceNotAddedError
deriving DecidableEq, Repr

/-- `is_added` inherited from `AddedDiagnostics`: `len(self.errors) == 0`. -/
def ParentAddedDiagnostics.is_added (d : ParentAddedDiagnostics) : Bool :=
  d.errors.length == 0

/-- `_ParentAddedDiagnostics.update_with_children`: for each child diagnostics
in order, `self.errors = diagnostics.errors + self.errors`. -/
def ParentAddedDiagnostics.update_with_children (d : ParentAddedDiagnostics)
    (children_diagnostics : List AddedDiagnostics) : ParentAddedDiagnostics :=
  children_diagnostics.foldl
    (fun s diagnostics => { s with errors := diagnostics.errors ++ s.errors }) d

/-- `_ParentAddedDiagnostics.raise_for_errors`:
`if not self.is_added: raise self.exception_class(errors=self.errors)`. -/
def ParentAddedDiagnostics.raise_for_errors (d : ParentAddedDiagnostics) :
    Except ResourcesNotAddedError Unit :=
  if !d.is_added then
    Except.error { kind := d.exception_class, errors := d.errors }
  else Except.ok ()

/-- State-passing variant of `_ParentAddedDiagnostics.raise_for_errors`. -/
def ParentAddedDiagnostics.raise_for_errors_st (d : ParentAddedDiagnostics) :
    Except ResourcesNotAddedError Unit × ParentAddedDiagnostics :=
  if !d.is_added then
    (Except.error { kind := d.exception_class, errors := d.errors }, d)
  else (Except.ok (), d)

/-- `_ParentAddedDiagnostics._dependencies_added_except_parent`:
`len(self.errors) == 1 and isinstance(self.errors[0], self.parent_error_class)`
(the short-circuit `and` guards the index access). -/
def ParentAddedDiagnostics.dependencies_added_except_parent
    (d : ParentAddedDiagnostics) : Bool :=
  (d.errors.length == 1) &&
    (match d.errors[0]? with
     | some e => isinstance_of e d.parent_error_class
     | none => false)

/-- `_ParentAddedDiagnostics.raise_for_errors_except_parent_not_added_error`:
`if not self.is_added and not self._dependencies_added_except_parent: raise
self.exception_class(errors=self.errors)`. -/
def ParentAddedDiagnostics.raise_for_errors_except_parent_not_added_error
    (d : ParentAddedDiagnostics) : Except ResourcesNotAddedError Unit :=
  if !d.is_added && !d.dependencies_added_except_parent then
    Except.error { kind := d.exception_class, errors := d.errors }
  else Except.ok ()

/-- State-passing variant of
`raise_for_errors_except_parent_not_added_error`. -/
def ParentAddedDiagnostics.raise_for_errors_except_parent_not_added_error_st
    (d : ParentAddedDiagnostics) :
    Except ResourcesNotAddedError Unit × ParentAddedDiagnostics :=
  if !d.is_added && !d.dependencies_added_except_parent then
    (Except.error { kind := d.exception_class, errors := d.errors }, d)
  else (Except.ok (), d)

/-- `ValidationDefinitionAddedDiagnostics`: fixes the class-level variables of
`_ParentAddedDiagnostics` for validation definitions. -/
def ValidationDefinitionAddedDiagnostics
    (errors : List ResourceNotAddedError) : ParentAddedDiagnostics :=
  { parent_error_class := ResourceErrorKind.validationDefinitionNotAdded,
    children_error_classes := [ResourceErrorKind.expectationSuiteNotAdded,
      ResourceErrorKind.batchDefinitionNotAdded],
    exception_class := ResourcesExceptionKind.validationDefinitionRelatedResourcesNotAdded,
    errors := errors }

/-- `CheckpointAddedDiagnostics`: fixes the class-level variables of
`_ParentAddedDiagnostics` for checkpoints. -/
def CheckpointAddedDiagnostics
    (errors : List ResourceNotAddedError) : ParentAddedDiagnostics :=
  { parent_error_class := ResourceErrorKind.checkpointNotAdded,
    children_error_classes := [ResourceErrorKind.validationDefinitionNotAdded],
    exception_class := ResourcesExceptionKind.checkpointRelatedResourcesNotAdded,
    errors := errors }

/-- Concrete errors used for counterexamples and witnesses. -/
def errA : ResourceNotAddedError :=
  { kind := ResourceErrorKind.validationDefinitionNotAdded, message := "A" }

def errB : ResourceNotAddedError :=
  { kind := ResourceErrorKind.validationDefinitionNotAdded, message := "B" }

def errP : ResourceNotAddedError :=
  { kind := ResourceErrorKind.checkpointNotAdded, message := "P" }

/-- Helper: `is_added` on the base class is the emptiness of the error list. -/
theorem is_added_iff (d : AddedDiagnostics) : d.is_added = true ↔ d.errors = [] := by
  simp [AddedDiagnostics.is_added, List.length_eq_zero]

/-- Helper: `is_added` on parent diagnostics is the emptiness of the list. -/
theorem parent_is_added_iff (d : ParentAddedDiagnostics) :
    d.is_added = true ↔ d.errors = [] := by
  simp [ParentAddedDiagnostics.is_added, List.length_eq_zero]

/-- Helper: the error list after `update_with_children` is the concatenation
of the children's error lists in reverse call order, followed by the parent's
original errors. -/
theorem update_with_children_errors (cs : List AddedDiagnostics)
    (d : ParentAddedDiagnostics) :
    (d.update_with_children cs).errors
      = (cs.reverse.map AddedDiagnostics.errors).flatten ++ d.errors := by
  induction cs generalizing d with
  | nil => simp [ParentAddedDiagnostics.update_with_children]
  | cons c cs ih =>
    have hstep : d.update_with_children (c :: cs)
        = ParentAddedDiagnostics.update_with_children
            { d with errors := c.errors ++ d.errors } cs := rfl
    rw [hstep, ih]
    simp [List.flatten_append, List.append_assoc]

end GX

namespace GX

/-- Helper: the suppressing raise variant returns normally exactly when the
error list is empty or is a single error instance of the parent error class. -/
theorem raise_except_parent_ok_iff (d : ParentAddedDiagnostics) :
    d.raise_for_errors_except_parent_not_added_error = Except.ok () ↔
      (d.errors = [] ∨
        ∃ e, d.errors = [e] ∧ isinstance_of e d.parent_error_class = true) := by
  unfold ParentAddedDiagnostics.raise_for_errors_except_parent_not_added_error
  unfold ParentAddedDiagnostics.dependencies_added_except_parent
  unfold ParentAddedDiagnostics.is_added
  match h : d.errors with
  | [] => simp [h]
  | [e] =>
    by_cases hk : isinstance_of e d.parent_error_class = true
    · simp [h, hk]
    · simp [h, hk]
  | e1 :: e2 :: rest => simp [h]

end GX

namespace GX

/-- C1 (counterexample): with a parent whose own error list is `[errP]` and
children with error lists `[errA]` and `[errB]` passed in that order,
`update_with_children` produces `[errB, errA, errP]`, which differs from the
claimed `[errA, errB, errP]`. -/
theorem C1_counterexample :
    ((CheckpointAddedDiagnostics [errP]).update_with_children
        [AddedDiagnostics.mk [errA], AddedDiagnostics.mk [errB]]).errors
      = [errB, errA, errP] ∧
    (((CheckpointAddedDiagnostics [errP]).update_with_children
        [AddedDiagnostics.mk [errA], AddedDiagnostics.mk [errB]]).errors
      == [errA, errB, errP]) = false := by
  decide

/-- C1 (amended): for every parent diagnostics whose own error list is `[P]`,
calling `update_with_children` with two child diagnostics whose error lists
are `[A]` and `[B]`, passed in that order, yields the final error list
`[B, A, P]`: each child's errors are prepended in turn, so the relative order
among the children is reversed, while all child errors still come before the
parent's own. -/
theorem C1_update_with_children_order (d : ParentAddedDiagnostics)
    (c1 c2 : AddedDiagnostics) (A B P : ResourceNotAddedError)
    (hd : d.errors = [P]) (h1 : c1.errors = [A]) (h2 : c2.errors = [B]) :
    (d.update_with_children [c1, c2]).errors = [B, A, P] := by
  rw [update_with_children_errors]
  simp [hd, h1, h2]

/-- C1 (witness for the amended theorem). -/
theorem C1_update_with_children_order_witness :
    ((CheckpointAddedDiagnostics [errP]).update_with_children
        [AddedDiagnostics.mk [errA], AddedDiagnostics.mk [errB]]).errors
      = [errB, errA, errP] :=
  C1_update_with_children_order (CheckpointAddedDiagnostics [errP])
    (AddedDiagnostics.mk [errA]) (AddedDiagnostics.mk [errB])
    errA errB errP rfl rfl rfl

/-- C2 (counterexample): on a parent diagnostics with an empty error list,
`raise_for_errors_except_parent_not_added_error` is also a no-op, although the
error list is not a one-element list containing the parent-not-added error;
this refutes the claimed "only when" direction. -/
theorem C2_counterexample :
    (CheckpointAddedDiagnostics []).raise_for_errors_except_parent_not_added_error
      = Except.ok () ∧
    ((CheckpointAddedDiagnostics []).errors.length == 1) = false :=
  ⟨rfl, by decide⟩

/-- C2 (amended): for every parent diagnostics,
`raise_for_errors_except_parent_not_added_error` is a no-op when and only when
the error list is empty or is exactly a one-element list containing an
instance of the parent-not-added error class; in particular it raises when the
list contains the parent-not-added error together with any other error. -/
theorem C2_raise_except_parent_noop_iff (d : ParentAddedDiagnostics) :
    d.raise_for_errors_except_parent_not_added_error = Except.ok () ↔
      (d.errors = [] ∨
        ∃ e, d.errors = [e] ∧ isinstance_of e d.parent_error_class = true) :=
  raise_except_parent_ok_iff d

/-- C3: for every diagnostics object (base/child and parent alike), `is_added`
is true if and only if its error list is empty. -/
theorem C3_is_added_iff_no_errors :
    (∀ d : AddedDiagnostics, d.is_added = true ↔ d.errors = []) ∧
    (∀ d : ParentAddedDiagnostics, d.is_added = true ↔ d.errors = []) :=
  ⟨is_added_iff, parent_is_added_iff⟩

/-- C4: for every childless (child) diagnostics, `raise_for_errors` returns
normally when the error list is empty, and when the error list is non-empty it
raises exactly the first recorded error. -/
theorem C4_child_raise_for_errors (d : AddedDiagnostics) :
    (d.errors = [] →
      ChildAddedDiagnostics.raise_for_errors d = ChildRaiseResult.ok) ∧
    (∀ e rest, d.errors = e :: rest →
      ChildAddedDiagnostics.raise_for_errors d = ChildRaiseResult.raised e) := by
  constructor
  · intro h
    simp [ChildAddedDiagnostics.raise_for_errors, AddedDiagnostics.is_added, h]
  · intro e rest h
    simp [ChildAddedDiagnostics.raise_for_errors, AddedDiagnostics.is_added, h]

/-- C4 (witness). -/
theorem C4_child_raise_for_errors_witness :
    ChildAddedDiagnostics.raise_for_errors (AddedDiagnostics.mk [])
      = ChildRaiseResult.ok ∧
    ChildAddedDiagnostics.raise_for_errors (AddedDiagnostics.mk [errA, errB])
      = ChildRaiseResult.raised errA :=
  ⟨(C4_child_raise_for_errors (AddedDiagnostics.mk [])).1 rfl,
   (C4_child_raise_for_errors (AddedDiagnostics.mk [errA, errB])).2 errA [errB] rfl⟩

end GX

namespace GX

/-- C5: for every parent diagnostics with a non-empty error list,
`raise_for_errors` raises the aggregate exception kind associated with that
resource type, carrying the full error list in its recorded order; with an
empty error list it is a no-op. -/
theorem C5_parent_raise_for_errors (d : ParentAddedDiagnostics) :
    (d.errors = [] → d.raise_for_errors = Except.ok ()) ∧
    (d.errors ≠ [] →
      d.raise_for_errors
        = Except.error { kind := d.exception_class, errors := d.errors }) := by
  constructor
  · intro h
    simp [ParentAddedDiagnostics.raise_for_errors, ParentAddedDiagnostics.is_added, h]
  · intro h
    simp [ParentAddedDiagnostics.raise_for_errors, ParentAddedDiagnostics.is_added,
      List.length_eq_zero, h]

/-- C5 (witness). -/
theorem C5_parent_raise_for_errors_witness :
    (CheckpointAddedDiagnostics []).raise_for_errors = Except.ok () ∧
    (CheckpointAddedDiagnostics [errA, errP]).raise_for_errors
      = Except.error
          { kind := ResourcesExceptionKind.checkpointRelatedResourcesNotAdded,
            errors := [errA, errP] } :=
  ⟨(C5_parent_raise_for_errors (CheckpointAddedDiagnostics [])).1 rfl,
   (C5_parent_raise_for_errors (CheckpointAddedDiagnostics [errA, errP])).2
     (by decide)⟩

/-- C6: constructing a diagnostics object from any error list and reading back
its error list yields the same errors in the same order; construction is a
total function (it never raises). -/
theorem C6_construction_roundtrip (es : List ResourceNotAddedError) :
    (AddedDiagnostics.mk es).errors = es ∧
    (CheckpointAddedDiagnostics es).errors = es ∧
    (ValidationDefinitionAddedDiagnostics es).errors = es :=
  ⟨rfl, rfl, rfl⟩

/-- C7: for a parent diagnostics whose sole recorded error is `e`, the
suppression in `raise_for_errors_except_parent_not_added_error` applies when
and only when `e` is an instance of the specific parent-not-added error class
configured for that resource type; a sole error of any other kind still raises
the aggregate exception. -/
theorem C7_suppression_specific_kind (d : ParentAddedDiagnostics)
    (e : ResourceNotAddedError) (hd : d.errors = [e]) :
    (d.raise_for_errors_except_parent_not_added_error = Except.ok () ↔
      e.kind = d.parent_error_class) ∧
    (e.kind ≠ d.parent_error_class →
      d.raise_for_errors_except_parent_not_added_error
        = Except.error { kind := d.exception_class, errors := d.errors }) := by
  constructor
  · rw [raise_except_parent_ok_iff]
    simp [hd, isinstance_of]
  · intro hk
    unfold ParentAddedDiagnostics.raise_for_errors_except_parent_not_added_error
    unfold ParentAddedDiagnostics.dependencies_added_except_parent
    unfold ParentAddedDiagnostics.is_added
    simp [hd, isinstance_of, hk]

/-- C7 (witness): for checkpoint diagnostics, a sole `CheckpointNotAddedError`
is suppressed, while a sole error of another resource type's parent-not-added
kind (a `ValidationDefinitionNotAddedError`) still raises. -/
theorem C7_suppression_specific_kind_witness :
    (CheckpointAddedDiagnostics [errP]).raise_for_errors_except_parent_not_added_error
      = Except.ok () ∧
    (CheckpointAddedDiagnostics [errA]).raise_for_errors_except_parent_not_added_error
      = Except.error
          { kind := ResourcesExceptionKind.checkpointRelatedResourcesNotAdded,
            errors := [errA] } :=
  ⟨((C7_suppression_specific_kind (CheckpointAddedDiagnostics [errP]) errP rfl).1).mpr
      rfl,
   (C7_suppression_specific_kind (CheckpointAddedDiagnostics [errA]) errA rfl).2
      (by decide)⟩

/-- C8: the childless `raise_for_errors` never hits an out-of-bounds access on
`self.errors[0]`: for every input it either returns normally or raises a
recorded error, so the `indexError` outcome is unreachable. -/
theorem C8_no_index_error (d : AddedDiagnostics) :
    ChildAddedDiagnostics.raise_for_errors d = ChildRaiseResult.ok ∨
    ∃ e, ChildAddedDiagnostics.raise_for_errors d = ChildRaiseResult.raised e := by
  rcases d with ⟨errs⟩
  cases errs with
  | nil => exact Or.inl rfl
  | cons e rest =>
    refine Or.inr ⟨e, ?_⟩
    simp [ChildAddedDiagnostics.raise_for_errors, AddedDiagnostics.is_added]

/-- C9: `raise_for_errors` (child and parent) and
`raise_for_errors_except_parent_not_added_error` leave the error list
unchanged, both when they raise and when they return normally. -/
theorem C9_raise_preserves_errors :
    (∀ d : AddedDiagnostics,
      (ChildAddedDiagnostics.raise_for_errors_st d).2.errors = d.errors) ∧
    (∀ d : ParentAddedDiagnostics,
      d.raise_for_errors_st.2.errors = d.errors) ∧
    (∀ d : ParentAddedDiagnostics,
      d.raise_for_errors_except_parent_not_added_error_st.2.errors = d.errors) := by
  refine ⟨fun d => ?_, fun d => ?_, fun d => ?_⟩
  · rcases d with ⟨errs⟩
    cases errs with
    | nil => rfl
    | cons e rest =>
      simp [ChildAddedDiagnostics.raise_for_errors_st, AddedDiagnostics.is_added]
  · unfold ParentAddedDiagnostics.raise_for_errors_st
    split <;> rfl
  · unfold ParentAddedDiagnostics.raise_for_errors_except_parent_not_added_error_st
    split <;> rfl

/-- C10: after `update_with_children`, the parent's `is_added` is true if and
only if the parent's `is_added` was true before the call and every passed
child's `is_added` is true. -/
theorem C10_update_with_children_is_added (d : ParentAddedDiagnostics)
    (children : List AddedDiagnostics) :
    ((d.update_with_children children).is_added = true ↔
      (d.is_added = true ∧ ∀ c ∈ children, c.is_added = true)) := by
  rw [parent_is_added_iff, update_with_children_errors, parent_is_added_iff]
  simp only [List.append_eq_nil, List.flatten_eq_nil_iff, List.mem_map,
    List.mem_reverse, forall_exists_index, and_imp, forall_apply_eq_imp_iff₂]
  constructor
  · intro h
    exact ⟨h.2, fun c hc => (is_added_iff c).mpr (h.1 c hc)⟩
  · intro h
    exact ⟨fun c hc => (is_added_iff c).mp (h.2 c hc), h.1⟩

end GX
